import Mathlib

/-!
# Verification of the SME loan pricing backend

Shallow embedding of the risk-based pricing core of `src/backend/main.py`
(FastAPI backend of the SME loan platform).  Python floats are modelled as
rationals (`ℚ`); the opaque ML scorer bundle (pickled model, scaler, feature
name list) is modelled as optional functions whose failure (`none`) stands for
a raised exception; display-only string fields of the response (the
`*_pct` percentage strings) and the serialization-time decimal rounding
(`round(x, 6)` / `round(x, 0)`) are not modelled — per the spec they are the
serializer's concern, not the core's.
-/

namespace SME

/-- `TAIWAN_REDISCOUNT_RATE = 0.01875` (module constant). -/
def TAIWAN_REDISCOUNT_RATE : ℚ := 1875 / 100000

/-- Default base rate of `TaiwanMarketBenchmark.__init__`:
`TAIWAN_REDISCOUNT_RATE + 0.00125` (the `BASE_RATE` environment override is
modelled by passing an arbitrary `base_rate` to the functions below). -/
def default_base_rate : ℚ := TAIWAN_REDISCOUNT_RATE + 125 / 100000

/-- One entry of `TaiwanMarketBenchmark.credit_score_tiers`. -/
structure CreditTier where
  min : ℕ
  max : ℕ
  premium : ℚ
  label : String
  deriving DecidableEq

/-- `TaiwanMarketBenchmark.credit_score_tiers`, in source order. -/
def credit_score_tiers : List CreditTier :=
  [⟨750, 850, 0, "優質"⟩,
   ⟨700, 749, 5 / 1000, "良好"⟩,
   ⟨650, 699, 15 / 1000, "尚可"⟩,
   ⟨600, 649, 30 / 1000, "普通"⟩,
   ⟨550, 599, 50 / 1000, "偏低"⟩,
   ⟨300, 549, 80 / 1000, "低"⟩]

/-- The `for` loop of `get_credit_score_premium`: first tier with
`tier["min"] <= credit_score <= tier["max"]`; the empty-list case is the
`return 0.080, "低"` fallback after the loop. -/
def lookupCreditTier : List CreditTier → ℕ → ℚ × String
  | [], _ => (80 / 1000, "低")
  | t :: ts, s => if t.min ≤ s ∧ s ≤ t.max then (t.premium, t.label) else lookupCreditTier ts s

/-- `TaiwanMarketBenchmark.get_credit_score_premium`. -/
def TaiwanMarketBenchmark.get_credit_score_premium (credit_score : ℕ) : ℚ × String :=
  lookupCreditTier credit_score_tiers credit_score

/-- `TaiwanMarketBenchmark.dbr_surcharge_tiers` as `(max_dbr, surcharge)` pairs,
in source order. -/
def dbr_surcharge_tiers : List (ℚ × ℚ) :=
  [(5 / 10, 0),
   (1, 5 / 1000),
   (2, 15 / 1000),
   (3, 30 / 1000),
   (5, 50 / 1000)]

/-- The `for` loop of `get_dbr_surcharge`: first tier with
`dbr <= tier["max_dbr"]`; empty list is the `return 0.050` fallback. -/
def lookupDbrTier : List (ℚ × ℚ) → ℚ → ℚ
  | [], _ => 50 / 1000
  | t :: ts, dbr => if dbr ≤ t.1 then t.2 else lookupDbrTier ts dbr

/-- `TaiwanMarketBenchmark.get_dbr_surcharge`. -/
def TaiwanMarketBenchmark.get_dbr_surcharge (dbr : ℚ) : ℚ :=
  lookupDbrTier dbr_surcharge_tiers dbr

/-- `RiskBasedPricingLayer.industry_premium` dict, accessed with
`.get(industry, 0.0030)`. -/
def industry_premium (industry : String) : ℚ :=
  if industry = "manufacturing" then 0
  else if industry = "technology" then 0
  else if industry = "services" then 25 / 10000
  else if industry = "retail_trade" then 30 / 10000
  else if industry = "construction" then 40 / 10000
  else if industry = "agriculture" then 45 / 10000
  else if industry = "other" then 30 / 10000
  else 30 / 10000

/-- `RiskBasedPricingLayer.min_rate = 0.025`. -/
def min_rate : ℚ := 25 / 1000

/-- `RiskBasedPricingLayer.max_rate = 0.120`. -/
def max_rate : ℚ := 120 / 1000

/-- Return value of `RiskBasedPricingLayer.calculate`: the returned dict,
with the ordered `components` dict as an association list. -/
structure PricingOutput where
  final_rate : ℚ
  components : List (String × ℚ)
  credit_label : String
  raw_total_before_cap : ℚ

/-- `RiskBasedPricingLayer.calculate`, with the benchmark's (possibly
env-overridden) `base_rate` passed explicitly. -/
def RiskBasedPricingLayer.calculate
    (base_rate : ℚ) (pd_score : ℚ) (credit_score : ℕ) (dbr : ℚ)
    (loan_amount_ntd : ℚ) (tenor_months : ℕ) (industry : String)
    (collateral_coverage : ℚ) (is_existing_customer : Bool)
    (has_credit_guarantee : Bool) (ml_adjustment : ℚ) : PricingOutput :=
  let base := base_rate
  let cp := TaiwanMarketBenchmark.get_credit_score_premium credit_score
  let credit_premium := cp.1
  let credit_label := cp.2
  let dbr_surcharge := TaiwanMarketBenchmark.get_dbr_surcharge dbr
  let lgd : ℚ := (40 / 100) * (1 - min (collateral_coverage * (4 / 10)) (4 / 10))
  let expected_loss := pd_score * lgd
  let funding_cost : ℚ := 100 / 10000
  let target_spread : ℚ := 150 / 10000
  let maturity_premium : ℚ := (15 / 10000) * ((tenor_months : ℚ) / 12)
  let size_discount : ℚ :=
    max (-(8 / 10000) * (loan_amount_ntd / 10000000)) (-(100 / 10000))
  let industry_prem := industry_premium industry
  let competitive_adj : ℚ := -(50 / 10000)
  let relationship_adj : ℚ := if is_existing_customer then -(30 / 10000) else 0
  let guarantee_adj : ℚ := if has_credit_guarantee then -(25 / 10000) else 0
  let ml_adj : ℚ := max (-(5 / 1000)) (min ml_adjustment (5 / 1000))
  let total :=
    base + credit_premium + dbr_surcharge +
    expected_loss + funding_cost + target_spread +
    maturity_premium + size_discount + industry_prem +
    competitive_adj + relationship_adj + guarantee_adj + ml_adj
  let final_rate := max min_rate (min total max_rate)
  { final_rate := final_rate
    components :=
      [("市場基準利率", base),
       ("信用評分溢酬", credit_premium),
       ("負債比加成", dbr_surcharge),
       ("預期損失成本(PD×LGD)", expected_loss),
       ("資金成本", funding_cost),
       ("目標利差", target_spread),
       ("期限溢酬", maturity_premium),
       ("規模折扣", size_discount),
       ("產業溢酬", industry_prem),
       ("市場競爭調整", competitive_adj),
       ("客戶關係折扣", relationship_adj),
       ("信保擔保折扣", guarantee_adj),
       ("ML模型微調", ml_adj)]
    credit_label := credit_label
    raw_total_before_cap := total }

/-- One value of the `RISK_GRADES` dict. -/
structure GradeInfo where
  name : String
  pd_max : ℚ
  color : String
  market_rate : ℚ
  deriving DecidableEq

/-- `RISK_GRADES`: dict keyed 1..8; Python dict iteration follows insertion
order, so it is modelled as an ordered association list. -/
def RISK_GRADES : List (ℕ × GradeInfo) :=
  [(1, ⟨"優良", 5 / 1000, "#28a745", 280 / 10000⟩),
   (2, ⟨"良好", 10 / 1000, "#5cb85c", 350 / 10000⟩),
   (3, ⟨"尚可", 25 / 1000, "#f0ad4e", 450 / 10000⟩),
   (4, ⟨"普通", 50 / 1000, "#ec971f", 580 / 10000⟩),
   (5, ⟨"注意", 100 / 1000, "#d58512", 720 / 10000⟩),
   (6, ⟨"次級", 200 / 1000, "#d9534f", 900 / 10000⟩),
   (7, ⟨"可疑", 500 / 1000, "#c9302c", 1100 / 10000⟩),
   (8, ⟨"損失", 1, "#ac2925", 1200 / 10000⟩)]

/-- One value of the `APPROVAL_MATRIX` dict. -/
structure Approval where
  decision : String
  authority : String
  conditions : String
  deriving DecidableEq

/-- `APPROVAL_MATRIX`, keyed by risk grade 1..8. -/
def APPROVAL_MATRIX : List (ℕ × Approval) :=
  [(1, ⟨"建議核准", "分行經理", "標準條件"⟩),
   (2, ⟨"建議核准", "分行經理", "標準條件"⟩),
   (3, ⟨"建議核准", "區域主管", "標準條件加強擔保"⟩),
   (4, ⟨"條件核准", "區域主管", "需額外擔保或保證人"⟩),
   (5, ⟨"條件核准", "總行審查", "強化擔保及密切追蹤"⟩),
   (6, ⟨"審慎評估", "總行審查", "特別簽報及風險控管"⟩),
   (7, ⟨"不建議核准", "總行審查", "除非有特殊理由及高階核准"⟩),
   (8, ⟨"拒絕", "N/A", "不符合授信政策"⟩)]

/-- The `for grade, info in RISK_GRADES.items()` loop of
`classify_risk_grade`: first grade with `pd_score < info["pd_max"]`, else the
`return 8` fallback after the loop. -/
def classifyAux : List (ℕ × GradeInfo) → ℚ → ℕ
  | [], _ => 8
  | (g, info) :: rest, pd_score =>
      if pd_score < info.pd_max then g else classifyAux rest pd_score

/-- `classify_risk_grade`. -/
def classify_risk_grade (pd_score : ℚ) : ℕ := classifyAux RISK_GRADES pd_score

/-- `RISK_GRADES[g]` dict access.  `classify_risk_grade` only yields keys
1..8, all present, so the `getD` default is unreachable in the pipeline. -/
def grade_info (g : ℕ) : GradeInfo :=
  ((RISK_GRADES.find? (fun p => p.1 == g)).map Prod.snd).getD
    ⟨"損失", 1, "#ac2925", 1200 / 10000⟩

/-- `APPROVAL_MATRIX[g]` dict access; same totalization remark as
`grade_info`. -/
def approval_info (g : ℕ) : Approval :=
  ((APPROVAL_MATRIX.find? (fun p => p.1 == g)).map Prod.snd).getD
    ⟨"拒絕", "N/A", "不符合授信政策"⟩

/-- The `app_data` dict handed to `check_rule_gate` by the orchestrator. -/
structure GateInput where
  annual_revenue_ntd : ℚ
  credit_score : ℕ
  years_in_business : ℕ
  dbr : ℚ
  collateral_coverage : ℚ

/-- The `rules` list of `check_rule_gate` as `(rule name, passed)` pairs.
The `actual` / `required` display strings of a failure record are
percent/thousands formatting of the same data and are not modelled; a failure
is identified by its rule name. -/
def gate_rules (a : GateInput) : List (String × Bool) :=
  [("最低年營收 NT$1,000,000", decide (a.annual_revenue_ntd ≥ 1000000)),
   ("最低信用分數 400", decide (a.credit_score ≥ 400)),
   ("最低營業年數 1年", decide (a.years_in_business ≥ 1)),
   ("DBR不得超過500%", decide (a.dbr ≤ 5)),
   ("擔保覆蓋率不得低於50%", decide (a.collateral_coverage ≥ 5 / 10))]

/-- `check_rule_gate`: collects every rule whose check is false (no
short-circuit), returns `(len(failed) == 0, failed)`. -/
def check_rule_gate (a : GateInput) : Bool × List String :=
  let failed := ((gate_rules a).filter (fun r => !r.2)).map Prod.fst
  (failed.length == 0, failed)

/-- `calculate_monthly_payment` (level-payment annuity). -/
def calculate_monthly_payment (loan_amount : ℚ) (annual_rate : ℚ)
    (tenor_months : ℕ) : ℚ :=
  let monthly_rate := annual_rate / 12
  if monthly_rate = 0 then loan_amount / tenor_months
  else loan_amount * monthly_rate * (1 + monthly_rate) ^ tenor_months /
    ((1 + monthly_rate) ^ tenor_months - 1)

/-- The feature dict passed to `predict_pd_from_model`, as an association
list (`features.get(key, default)` becomes `fget`). -/
def Features := List (String × ℚ)

/-- `features.get(k, d)`. -/
def fget (fs : Features) (k : String) (d : ℚ) : ℚ :=
  match fs.find? (fun p => p.1 == k) with
  | some p => p.2
  | none => d

/-- The `"credit_score"` dict key used by the PD fallback lookups. -/
def credit_score_key : String := "credit_score"

/-- The module globals `MODEL` / `SCALER` / `FEATURE_NAMES` loaded by
`load_model`.  The pickled model and scaler are opaque callables; a `none`
result models a raised exception inside the `try` block (shape mismatch,
numeric error, ...). -/
structure ScorerState where
  MODEL : Option (List ℚ → Option ℚ)
  SCALER : Option (List ℚ → Option (List ℚ))
  FEATURE_NAMES : Option (List String)

/-- The scorer state when no model bundle is loaded. -/
def noScorer : ScorerState := ⟨none, none, none⟩

/-- `max(0.001, min(0.5, (800 - cs) / 800 * 0.15))`: the credit-score-only
fallback PD formula, shared by the no-model branch, the exception handler and
the `simple_pd` of the scored path. -/
def fallback_pd (cs : ℚ) : ℚ :=
  max (1 / 1000) (min (1 / 2) ((800 - cs) / 800 * (15 / 100)))

/-- Body of the `try` block of `predict_pd_from_model`: build the row in
trained feature order (missing features default to 0), scale, predict, apply
the 0.02/0.16 macro calibration and clamp, then derive the damped ML
adjustment.  A `none` anywhere models the exception caught by the handler. -/
def score_attempt (model : List ℚ → Option ℚ)
    (scaler : List ℚ → Option (List ℚ)) (names : List String)
    (features : Features) : Option (ℚ × ℚ) := do
  let row := names.map (fun n => fget features n 0)
  let X_scaled ← scaler row
  let pd_raw ← model X_scaled
  let calibration_factor : ℚ := (2 / 100) / (16 / 100)
  let pd_calibrated := max (1 / 10000) (min (pd_raw * calibration_factor) (9999 / 10000))
  let simple_pd := fallback_pd (fget features credit_score_key 600)
  let ml_adjustment := (pd_calibrated - simple_pd) * (1 / 10)
  pure (pd_calibrated, ml_adjustment)

/-- `predict_pd_from_model`: returns `(pd_score, ml_adjustment, used_model)`.
Falls back to the formula path when any of the three globals is `None` or the
`try` block raises. -/
def predict_pd_from_model (st : ScorerState) (features : Features) :
    ℚ × ℚ × Bool :=
  match st.MODEL, st.SCALER, st.FEATURE_NAMES with
  | some model, some scaler, some names =>
    match score_attempt model scaler names features with
    | some r => (r.1, r.2, true)
    | none => (fallback_pd (fget features credit_score_key 600), 0, false)
  | _, _, _ => (fallback_pd (fget features credit_score_key 600), 0, false)

/-- The validated `LoanApplication` request body (Pydantic ranges are the
caller's responsibility; fields keep their schema types: positive floats as
`ℚ`, bounded ints as `ℕ`). -/
structure LoanApplication where
  annual_revenue_ntd : ℚ
  years_in_business : ℕ
  num_employees : ℕ
  business_sector : String
  credit_score : ℕ
  loan_amount_ntd : ℚ
  tenor_months : ℕ
  collateral_value_ntd : ℚ
  is_existing_customer : Bool
  has_credit_guarantee : Bool

/-- `dbr = application.loan_amount_ntd / max(application.annual_revenue_ntd, 1)`
(line 538). -/
def derived_dbr (a : LoanApplication) : ℚ :=
  a.loan_amount_ntd / max a.annual_revenue_ntd 1

/-- `collateral_coverage = application.collateral_value_ntd /
max(application.loan_amount_ntd, 1)` (line 539). -/
def derived_collateral_coverage (a : LoanApplication) : ℚ :=
  a.collateral_value_ntd / max a.loan_amount_ntd 1

/-- The inline sector-risk dict of the `ml_features` construction, accessed
with `.get(sector, 0.25)`. -/
def business_sector_risk (s : String) : ℚ :=
  if s = "manufacturing" then 15 / 100
  else if s = "retail_trade" then 20 / 100
  else if s = "services" then 25 / 100
  else if s = "agriculture" then 30 / 100
  else if s = "construction" then 28 / 100
  else if s = "technology" then 22 / 100
  else if s = "other" then 25 / 100
  else 25 / 100

/-- The `ml_features` dict built by the orchestrator. -/
def ml_features (a : LoanApplication) (dbr collateral_coverage : ℚ) : Features :=
  [("annual_revenue_ntd", a.annual_revenue_ntd),
   ("revenue_per_employee", a.annual_revenue_ntd / max (a.num_employees : ℚ) 1),
   ("years_in_business", (a.years_in_business : ℚ)),
   ("num_employees", (a.num_employees : ℚ)),
   ("business_growth_proxy", dbr),
   ("credit_score", (a.credit_score : ℚ)),
   ("owner_experience_years", (a.years_in_business : ℚ)),
   ("business_sector_risk", business_sector_risk a.business_sector),
   ("loan_amount_ntd", a.loan_amount_ntd),
   ("debt_to_revenue_ratio", dbr),
   ("collateral_coverage", collateral_coverage),
   ("tenor_months", (a.tenor_months : ℚ)),
   ("existing_debt_proxy", 8 / 100)]

/-- The `PredictionResponse` model, minus the display-only percentage strings
(`final_rate_pct`, `pd_score_pct`, `rate_pct` per component) and minus the
serializer rounding. -/
structure PredictionResponse where
  final_rate : ℚ
  pd_score : ℚ
  risk_grade : ℕ
  risk_grade_name : String
  risk_color : String
  components : List (String × ℚ)
  monthly_payment : ℚ
  total_payment : ℚ
  total_interest : ℚ
  approval_decision : String
  approval_authority : String
  approval_conditions : String
  market_benchmark_rate : ℚ
  rate_vs_market : ℚ
  is_eligible : Bool
  failed_rules : List String
  ml_model_used : Bool
  message : String

/-- The `/predict` handler `predict_interest_rate`, with the process-wide
scorer state and the benchmark base rate passed explicitly. -/
def predict_interest_rate (base_rate : ℚ) (st : ScorerState)
    (application : LoanApplication) : PredictionResponse :=
  let dbr := derived_dbr application
  let collateral_coverage := derived_collateral_coverage application
  let gate := check_rule_gate
    ⟨application.annual_revenue_ntd, application.credit_score,
     application.years_in_business, dbr, collateral_coverage⟩
  if gate.1 then
    let r := predict_pd_from_model st (ml_features application dbr collateral_coverage)
    let pd_score := r.1
    let ml_adjustment := r.2.1
    let ml_used := r.2.2
    let pricing := RiskBasedPricingLayer.calculate base_rate pd_score
      application.credit_score dbr application.loan_amount_ntd
      application.tenor_months application.business_sector collateral_coverage
      application.is_existing_customer application.has_credit_guarantee
      ml_adjustment
    let final_rate := pricing.final_rate
    let risk_grade := classify_risk_grade pd_score
    let ginfo := grade_info risk_grade
    let approval := approval_info risk_grade
    let monthly_payment := calculate_monthly_payment application.loan_amount_ntd
      final_rate application.tenor_months
    let total_payment := monthly_payment * application.tenor_months
    let total_interest := total_payment - application.loan_amount_ntd
    let market_rate := ginfo.market_rate
    { final_rate := final_rate
      pd_score := pd_score
      risk_grade := risk_grade
      risk_grade_name := ginfo.name
      risk_color := ginfo.color
      components := pricing.components
      monthly_payment := monthly_payment
      total_payment := total_payment
      total_interest := total_interest
      approval_decision := approval.decision
      approval_authority := approval.authority
      approval_conditions := approval.conditions
      market_benchmark_rate := market_rate
      rate_vs_market := final_rate - market_rate
      is_eligible := true
      failed_rules := []
      ml_model_used := ml_used
      message := "評估完成" }
  else
    { final_rate := 0
      pd_score := 0
      risk_grade := 8
      risk_grade_name := "損失"
      risk_color := "#ac2925"
      components := []
      monthly_payment := 0
      total_payment := 0
      total_interest := 0
      approval_decision := "拒絕"
      approval_authority := "N/A"
      approval_conditions := "未通過基本准入條件"
      market_benchmark_rate := 0
      rate_vs_market := 0
      is_eligible := false
      failed_rules := gate.2
      ml_model_used := false
      message := "申請案未通過基本准入規則檢查，請修正後再申請" }

/-! ## Helper lemmas -/

/-- The clamp `max min_rate (min x max_rate)` always lands in
`[min_rate, max_rate]`. -/
theorem clamp_mem (x : ℚ) :
    min_rate ≤ max min_rate (min x max_rate) ∧
    max min_rate (min x max_rate) ≤ max_rate :=
  ⟨le_max_left _ _, max_le (by norm_num [min_rate, max_rate]) (min_le_right _ _)⟩

/-- The 13 returned components of `RiskBasedPricingLayer.calculate` sum to the
reported `raw_total_before_cap`. -/
theorem calculate_components_sum (base pd : ℚ) (cs : ℕ) (dbr loan : ℚ)
    (tenor : ℕ) (ind : String) (cov : ℚ) (ec hg : Bool) (mla : ℚ) :
    ((RiskBasedPricingLayer.calculate base pd cs dbr loan tenor ind cov ec hg
        mla).components.map Prod.snd).sum =
      (RiskBasedPricingLayer.calculate base pd cs dbr loan tenor ind cov ec hg
        mla).raw_total_before_cap := by
  simp only [RiskBasedPricingLayer.calculate, List.map_cons, List.map_nil,
    List.sum_cons, List.sum_nil]
  ring

/-- `RiskBasedPricingLayer.calculate` always returns a final rate in
`[min_rate, max_rate]`. -/
theorem calculate_final_clamped (base pd : ℚ) (cs : ℕ) (dbr loan : ℚ)
    (tenor : ℕ) (ind : String) (cov : ℚ) (ec hg : Bool) (mla : ℚ) :
    min_rate ≤ (RiskBasedPricingLayer.calculate base pd cs dbr loan tenor ind
      cov ec hg mla).final_rate ∧
    (RiskBasedPricingLayer.calculate base pd cs dbr loan tenor ind cov ec hg
      mla).final_rate ≤ max_rate := by
  simp only [RiskBasedPricingLayer.calculate]
  exact clamp_mem _

/-! ## Claim theorems -/

/-- Claim C1: for every input to `RiskBasedPricingLayer.calculate`, the 13
returned named components sum (before clamping) to the reported
`raw_total_before_cap`, the returned `final_rate` is that sum clamped to
`[min_rate = 0.025, max_rate = 0.120]`, and consequently `final_rate` always
lies in `[0.025, 0.120]`. -/
theorem C1_calculate_sum_and_clamp (base pd : ℚ) (cs : ℕ) (dbr loan : ℚ)
    (tenor : ℕ) (ind : String) (cov : ℚ) (ec hg : Bool) (mla : ℚ) :
    (RiskBasedPricingLayer.calculate base pd cs dbr loan tenor ind cov ec hg
      mla).components.length = 13 ∧
    ((RiskBasedPricingLayer.calculate base pd cs dbr loan tenor ind cov ec hg
      mla).components.map Prod.snd).sum =
      (RiskBasedPricingLayer.calculate base pd cs dbr loan tenor ind cov ec hg
        mla).raw_total_before_cap ∧
    (RiskBasedPricingLayer.calculate base pd cs dbr loan tenor ind cov ec hg
      mla).final_rate =
      max min_rate (min (RiskBasedPricingLayer.calculate base pd cs dbr loan
        tenor ind cov ec hg mla).raw_total_before_cap max_rate) ∧
    min_rate = 25 / 1000 ∧ max_rate = 120 / 1000 ∧
    min_rate ≤ (RiskBasedPricingLayer.calculate base pd cs dbr loan tenor ind
      cov ec hg mla).final_rate ∧
    (RiskBasedPricingLayer.calculate base pd cs dbr loan tenor ind cov ec hg
      mla).final_rate ≤ max_rate :=
  ⟨rfl, calculate_components_sum base pd cs dbr loan tenor ind cov ec hg mla,
    rfl, rfl, rfl,
    calculate_final_clamped base pd cs dbr loan tenor ind cov ec hg mla⟩

/-- Claim C2, counterexample: an otherwise-compliant application with annual
revenue 500,000 is rejected by the rule gate, and on that branch the pipeline
returns `final_rate = 0.0`, which is **not** in `[0.025, 0.120]` — so the
claim "every branch returns a final rate in `[min_rate, max_rate]`" is false
at this input. -/
def C2_app : LoanApplication :=
  ⟨500000, 5, 20, "manufacturing", 680, 500000, 36, 500000, false, false⟩

/-- Claim C2 is false as stated: at `C2_app` (a valid application) the
`/predict` pipeline returns `final_rate = 0`, below `min_rate`. -/
theorem C2_rejected_rate_below_min :
    (predict_interest_rate default_base_rate noScorer C2_app).final_rate = 0 ∧
    ¬ min_rate ≤ (predict_interest_rate default_base_rate noScorer C2_app).final_rate := by
  have h : (predict_interest_rate default_base_rate noScorer C2_app).final_rate = 0 := by
    norm_num [predict_interest_rate, derived_dbr, derived_collateral_coverage,
      check_rule_gate, gate_rules, C2_app, List.filter]
  exact ⟨h, by rw [h]; norm_num [min_rate]⟩

/-- Claim C2, amended: on the eligible branch the final rate is always in
`[min_rate, max_rate] = [0.025, 0.120]`; on the rule-gate rejection branch the
pipeline instead returns the sentinel `final_rate = 0.0`. -/
theorem C2_final_rate_by_branch (base : ℚ) (st : ScorerState)
    (a : LoanApplication) :
    ((predict_interest_rate base st a).is_eligible = true →
      min_rate ≤ (predict_interest_rate base st a).final_rate ∧
      (predict_interest_rate base st a).final_rate ≤ max_rate) ∧
    ((predict_interest_rate base st a).is_eligible = false →
      (predict_interest_rate base st a).final_rate = 0) := by
  simp only [predict_interest_rate]
  by_cases h : (check_rule_gate
    ⟨a.annual_revenue_ntd, a.credit_score, a.years_in_business,
     derived_dbr a, derived_collateral_coverage a⟩).1
  · simp only [h, if_true]
    exact ⟨fun _ => calculate_final_clamped _ _ _ _ _ _ _ _ _ _ _, by simp⟩
  · simp only [h, if_false, Bool.false_eq_true]
    exact ⟨by simp, by simp⟩

/-- An eligible application used to witness the eligible branch of
`C2_final_rate_by_branch`. -/
def C2_wapp : LoanApplication :=
  ⟨5000000, 5, 20, "manufacturing", 680, 2000000, 36, 2500000, false, false⟩

/-- Witness for `C2_final_rate_by_branch` at the eligible application
`C2_wapp`. -/
theorem C2_final_rate_by_branch_witness :
    min_rate ≤ (predict_interest_rate default_base_rate noScorer C2_wapp).final_rate ∧
    (predict_interest_rate default_base_rate noScorer C2_wapp).final_rate ≤ max_rate :=
  (C2_final_rate_by_branch default_base_rate noScorer C2_wapp).1
    (by norm_num [predict_interest_rate, derived_dbr, derived_collateral_coverage,
      check_rule_gate, gate_rules, C2_wapp, List.filter])

/-- Claim C3: `check_rule_gate` evaluates all five threshold rules with no
short-circuit (`failed` is exactly the filtered list of violated rules, one
entry per violated rule), `eligible` is true iff the failure list is empty;
an otherwise-compliant application with revenue 500,000 fails exactly the
revenue rule, and an application at every threshold boundary (revenue
1,000,000, credit score 400, years 1, dbr 5.0, coverage 0.5) is eligible with
no failures. -/
theorem C3_rule_gate_all_rules :
    (∀ a : GateInput,
      ((check_rule_gate a).1 = true ↔ (check_rule_gate a).2 = []) ∧
      (check_rule_gate a).2 = ((gate_rules a).filter (fun r => !r.2)).map Prod.fst ∧
      (gate_rules a).length = 5) ∧
    check_rule_gate ⟨500000, 680, 5, 2 / 5, 5 / 4⟩ =
      (false, ["最低年營收 NT$1,000,000"]) ∧
    check_rule_gate ⟨1000000, 400, 1, 5, 1 / 2⟩ = (true, []) := by
  refine ⟨fun a => ⟨?_, rfl, rfl⟩, ?_, ?_⟩
  · simp [check_rule_gate, List.length_eq_zero]
  · norm_num [check_rule_gate, gate_rules, List.filter]
  · norm_num [check_rule_gate, gate_rules, List.filter]

/-- Claim C4: whenever the scorer bundle is unavailable (`MODEL`, `SCALER` or
`FEATURE_NAMES` is `None`) or the scoring attempt raises, the PD estimator
returns exactly the fallback formula
`clamp((800 - credit_score) / 800 * 0.15, 0.001, 0.5)` with `adjustment = 0`
and `scored = false`; `predict_pd_from_model` is total, so no scoring failure
propagates to the caller. -/
theorem C4_pd_fallback (st : ScorerState) (features : Features)
    (h : st.MODEL = none ∨ st.SCALER = none ∨ st.FEATURE_NAMES = none ∨
      ∀ model scaler names, st.MODEL = some model → st.SCALER = some scaler →
        st.FEATURE_NAMES = some names →
        score_attempt model scaler names features = none) :
    predict_pd_from_model st features =
      (max (1 / 1000) (min (1 / 2)
        ((800 - fget features credit_score_key 600) / 800 * (15 / 100))), 0, false) := by
  rcases st with ⟨_ | model, _ | scaler, _ | names⟩ <;>
    try simp [predict_pd_from_model, fallback_pd]
  · rcases h with h | h | h | h
    · simp at h
    · simp at h
    · simp at h
    · have hn := h model scaler names rfl rfl rfl
      simp [predict_pd_from_model, hn, fallback_pd]

/-- Witness for `C4_pd_fallback`: the empty scorer state with an empty feature
record falls back to the formula at the default credit score 600. -/
theorem C4_pd_fallback_witness :
    predict_pd_from_model noScorer [] =
      (max (1 / 1000) (min (1 / 2)
        ((800 - fget [] credit_score_key 600) / 800 * (15 / 100))), 0, false) :=
  C4_pd_fallback noScorer [] (Or.inl rfl)

set_option maxHeartbeats 2000000 in
/-- Claim C5: `classify_risk_grade` always returns exactly one grade in
`{1..8}`; the grades' exclusive PD upper bounds are tested in ascending order,
the first grade with `pd < bound` wins, grade 8 catches everything at or above
the last proper bound, and the grade intervals are contiguous — no PD value is
unclassified and no two grades overlap. -/
theorem C5_classify_total (pd : ℚ) :
    (1 ≤ classify_risk_grade pd ∧ classify_risk_grade pd ≤ 8) ∧
    (classify_risk_grade pd = 1 ↔ pd < 5 / 1000) ∧
    (classify_risk_grade pd = 2 ↔ 5 / 1000 ≤ pd ∧ pd < 10 / 1000) ∧
    (classify_risk_grade pd = 3 ↔ 10 / 1000 ≤ pd ∧ pd < 25 / 1000) ∧
    (classify_risk_grade pd = 4 ↔ 25 / 1000 ≤ pd ∧ pd < 50 / 1000) ∧
    (classify_risk_grade pd = 5 ↔ 50 / 1000 ≤ pd ∧ pd < 100 / 1000) ∧
    (classify_risk_grade pd = 6 ↔ 100 / 1000 ≤ pd ∧ pd < 200 / 1000) ∧
    (classify_risk_grade pd = 7 ↔ 200 / 1000 ≤ pd ∧ pd < 500 / 1000) ∧
    (classify_risk_grade pd = 8 ↔ 500 / 1000 ≤ pd) := by
  simp only [classify_risk_grade, RISK_GRADES, classifyAux]
  split_ifs <;>
    refine ⟨?_, ?_, ?_, ?_, ?_, ?_, ?_, ?_, ?_⟩ <;>
    norm_num <;>
    first
      | linarith
      | (exact ⟨by linarith, by linarith⟩)
      | (rintro ⟨ha, hb⟩; linarith)
      | (intro ha; linarith)

/-- Claim C6, counterexample input: a schema-valid application (revenue > 0,
loan > 0) whose annual revenue is the fractional amount NT$0.5. -/
def C6_app : LoanApplication :=
  ⟨1 / 2, 5, 10, "manufacturing", 680, 1, 36, 1, false, false⟩

/-- Claim C6 is false as stated: the orchestrator divides by
`max(annual_revenue_ntd, 1)`, so for the valid application `C6_app`
(revenue = 0.5 > 0, loan = 1 > 0) the derived DBR is `1`, not the exact
quotient `loan / revenue = 2`. -/
theorem C6_derived_ratio_counterexample :
    (0 < C6_app.annual_revenue_ntd ∧ 0 < C6_app.loan_amount_ntd) ∧
    derived_dbr C6_app ≠ C6_app.loan_amount_ntd / C6_app.annual_revenue_ntd := by
  refine ⟨⟨by norm_num [C6_app], by norm_num [C6_app]⟩, ?_⟩
  rw [derived_dbr, show max C6_app.annual_revenue_ntd 1 = 1 from
    max_eq_right (by norm_num [C6_app])]
  norm_num [C6_app]

/-- Claim C6, amended: for every application with annual revenue ≥ 1 and loan
amount ≥ 1 (in particular all realistic NTD amounts), the derived
debt-to-revenue ratio equals `loan_amount_ntd / annual_revenue_ntd` exactly
and the derived collateral coverage equals
`collateral_value_ntd / loan_amount_ntd` exactly; below 1 the guard
`max(·, 1)` divides by 1 instead. -/
theorem C6_derived_ratios_amended (a : LoanApplication)
    (h1 : 1 ≤ a.annual_revenue_ntd) (h2 : 1 ≤ a.loan_amount_ntd) :
    derived_dbr a = a.loan_amount_ntd / a.annual_revenue_ntd ∧
    derived_collateral_coverage a = a.collateral_value_ntd / a.loan_amount_ntd := by
  rw [derived_dbr, derived_collateral_coverage, max_eq_left h1, max_eq_left h2]
  exact ⟨rfl, rfl⟩

/-- Witness application for `C6_derived_ratios_amended` (the spec's end-to-end
example). -/
def C6_wapp : LoanApplication :=
  ⟨5000000, 5, 20, "manufacturing", 680, 2000000, 36, 2500000, false, false⟩

/-- Witness for `C6_derived_ratios_amended` at `C6_wapp`. -/
theorem C6_derived_ratios_amended_witness :
    derived_dbr C6_wapp = C6_wapp.loan_amount_ntd / C6_wapp.annual_revenue_ntd ∧
    derived_collateral_coverage C6_wapp =
      C6_wapp.collateral_value_ntd / C6_wapp.loan_amount_ntd :=
  C6_derived_ratios_amended C6_wapp (by norm_num [C6_wapp]) (by norm_num [C6_wapp])

/-- Claim C7: for every supplied `ml_adjustment`, of any magnitude, the
ML-adjustment component reported by `RiskBasedPricingLayer.calculate` (the
13th and last component) equals `max(-0.005, min(ml_adjustment, 0.005))`, it
enters the pre-clamp sum, and it always lies in `[-0.005, 0.005]`. -/
theorem C7_ml_adjustment_clamped (base pd : ℚ) (cs : ℕ) (dbr loan : ℚ)
    (tenor : ℕ) (ind : String) (cov : ℚ) (ec hg : Bool) (mla : ℚ) :
    (RiskBasedPricingLayer.calculate base pd cs dbr loan tenor ind cov ec hg
      mla).components.getLast? =
      some ("ML模型微調", max (-(5 / 1000)) (min mla (5 / 1000))) ∧
    ((RiskBasedPricingLayer.calculate base pd cs dbr loan tenor ind cov ec hg
      mla).components.map Prod.snd).sum =
      (RiskBasedPricingLayer.calculate base pd cs dbr loan tenor ind cov ec hg
        mla).raw_total_before_cap ∧
    -(5 / 1000) ≤ max (-(5 / 1000)) (min mla (5 / 1000)) ∧
    max (-(5 / 1000)) (min mla (5 / 1000)) ≤ 5 / 1000 :=
  ⟨rfl, calculate_components_sum base pd cs dbr loan tenor ind cov ec hg mla,
    le_max_left _ _, max_le (by norm_num) (min_le_right _ _)⟩

/-- Claim C8: `calculate_monthly_payment` is total for every principal, tenor
≥ 1 and annual rate ≥ 0: at rate 0 it returns `principal / tenor_months`
exactly; at positive rate the annuity denominator
`(1 + rate/12)^tenor - 1` is nonzero and the level-payment formula is
returned; the sanity value `calculate_monthly_payment(1,200,000, 0.06, 36)` is
within 1 of 36,507 (its exact value is ≈ 36,506.32). -/
theorem C8_monthly_payment_total (P r : ℚ) (n : ℕ) (hn : 1 ≤ n) (hr : 0 ≤ r) :
    (r = 0 → calculate_monthly_payment P r n = P / n) ∧
    (0 < r → (1 + r / 12) ^ n - 1 ≠ 0 ∧
      calculate_monthly_payment P r n =
        P * (r / 12) * (1 + r / 12) ^ n / ((1 + r / 12) ^ n - 1)) ∧
    36506 < calculate_monthly_payment 1200000 (6 / 100) 36 ∧
    calculate_monthly_payment 1200000 (6 / 100) 36 < 36508 ∧
    |calculate_monthly_payment 1200000 (6 / 100) 36 - 36507| < 1 := by
  refine ⟨?_, ?_, ?_, ?_, ?_⟩
  · intro h0
    simp [calculate_monthly_payment, h0]
  · intro hpos
    have hpow : 1 < (1 + r / 12) ^ n := by
      calc (1 : ℚ) = 1 ^ n := (one_pow n).symm
      _ < (1 + r / 12) ^ n :=
          pow_lt_pow_left₀ (by linarith) (by norm_num) (by omega)
    refine ⟨sub_ne_zero_of_ne (ne_of_gt hpow), ?_⟩
    rw [calculate_monthly_payment, if_neg (by positivity)]
  · norm_num [calculate_monthly_payment]
  · norm_num [calculate_monthly_payment]
  · rw [abs_lt]
    constructor <;> norm_num [calculate_monthly_payment]

/-- Witness for `C8_monthly_payment_total`: at rate 0 the payment is the
straight-line quotient. -/
theorem C8_monthly_payment_total_witness :
    calculate_monthly_payment 1200000 0 36 = 1200000 / 36 :=
  (C8_monthly_payment_total 1200000 0 36 (by norm_num) (by norm_num)).1 rfl

/-- Claim C9: every integer credit score in `[300, 850]` is matched by exactly
one credit-score tier; `get_credit_score_premium` returns that tier's
premium and label, the premium is non-negative, and (because a matching tier
always exists) the terminal `return 0.080, "低"` fallback is unreachable on
this range. -/
theorem C9_credit_tier_coverage (s : ℕ) (h1 : 300 ≤ s) (h2 : s ≤ 850) :
    ∃ t, t ∈ credit_score_tiers ∧ (t.min ≤ s ∧ s ≤ t.max) ∧
      (∀ t2 ∈ credit_score_tiers, t2.min ≤ s ∧ s ≤ t2.max → t2 = t) ∧
      TaiwanMarketBenchmark.get_credit_score_premium s = (t.premium, t.label) ∧
      0 ≤ t.premium := by
  by_cases c1 : 750 ≤ s
  · refine ⟨⟨750, 850, 0, "優質"⟩, by simp [credit_score_tiers], ⟨c1, h2⟩,
      ?_, ?_, by norm_num⟩
    · intro t2 ht2 hc
      simp only [credit_score_tiers, List.mem_cons, List.not_mem_nil,
        or_false] at ht2
      rcases ht2 with rfl | rfl | rfl | rfl | rfl | rfl <;>
        first | rfl | (exfalso; dsimp only at hc; omega)
    · simp only [TaiwanMarketBenchmark.get_credit_score_premium,
        credit_score_tiers, lookupCreditTier]
      rw [if_pos ⟨c1, h2⟩]
  · by_cases c2 : 700 ≤ s
    · refine ⟨⟨700, 749, 5 / 1000, "良好"⟩, by simp [credit_score_tiers],
        ⟨c2, show s ≤ 749 by omega⟩, ?_, ?_, by norm_num⟩
      · intro t2 ht2 hc
        simp only [credit_score_tiers, List.mem_cons, List.not_mem_nil,
          or_false] at ht2
        rcases ht2 with rfl | rfl | rfl | rfl | rfl | rfl <;>
          first | rfl | (exfalso; dsimp only at hc; omega)
      · simp only [TaiwanMarketBenchmark.get_credit_score_premium,
          credit_score_tiers, lookupCreditTier]
        rw [if_neg (fun hcon => c1 hcon.1), if_pos ⟨c2, show s ≤ 749 by omega⟩]
    · by_cases c3 : 650 ≤ s
      · refine ⟨⟨650, 699, 15 / 1000, "尚可"⟩, by simp [credit_score_tiers],
          ⟨c3, show s ≤ 699 by omega⟩, ?_, ?_, by norm_num⟩
        · intro t2 ht2 hc
          simp only [credit_score_tiers, List.mem_cons, List.not_mem_nil,
            or_false] at ht2
          rcases ht2 with rfl | rfl | rfl | rfl | rfl | rfl <;>
            first | rfl | (exfalso; dsimp only at hc; omega)
        · simp only [TaiwanMarketBenchmark.get_credit_score_premium,
            credit_score_tiers, lookupCreditTier]
          rw [if_neg (fun hcon => c1 hcon.1), if_neg (fun hcon => c2 hcon.1),
            if_pos ⟨c3, show s ≤ 699 by omega⟩]
      · by_cases c4 : 600 ≤ s
        · refine ⟨⟨600, 649, 30 / 1000, "普通"⟩, by simp [credit_score_tiers],
            ⟨c4, show s ≤ 649 by omega⟩, ?_, ?_, by norm_num⟩
          · intro t2 ht2 hc
            simp only [credit_score_tiers, List.mem_cons, List.not_mem_nil,
              or_false] at ht2
            rcases ht2 with rfl | rfl | rfl | rfl | rfl | rfl <;>
              first | rfl | (exfalso; dsimp only at hc; omega)
          · simp only [TaiwanMarketBenchmark.get_credit_score_premium,
              credit_score_tiers, lookupCreditTier]
            rw [if_neg (fun hcon => c1 hcon.1), if_neg (fun hcon => c2 hcon.1),
              if_neg (fun hcon => c3 hcon.1),
              if_pos ⟨c4, show s ≤ 649 by omega⟩]
        · by_cases c5 : 550 ≤ s
          · refine ⟨⟨550, 599, 50 / 1000, "偏低"⟩, by simp [credit_score_tiers],
              ⟨c5, show s ≤ 599 by omega⟩, ?_, ?_, by norm_num⟩
            · intro t2 ht2 hc
              simp only [credit_score_tiers, List.mem_cons, List.not_mem_nil,
                or_false] at ht2
              rcases ht2 with rfl | rfl | rfl | rfl | rfl | rfl <;>
                first | rfl | (exfalso; dsimp only at hc; omega)
            · simp only [TaiwanMarketBenchmark.get_credit_score_premium,
                credit_score_tiers, lookupCreditTier]
              rw [if_neg (fun hcon => c1 hcon.1), if_neg (fun hcon => c2 hcon.1),
                if_neg (fun hcon => c3 hcon.1), if_neg (fun hcon => c4 hcon.1),
                if_pos ⟨c5, show s ≤ 599 by omega⟩]
          · refine ⟨⟨300, 549, 80 / 1000, "低"⟩, by simp [credit_score_tiers],
              ⟨h1, show s ≤ 549 by omega⟩, ?_, ?_, by norm_num⟩
            · intro t2 ht2 hc
              simp only [credit_score_tiers, List.mem_cons, List.not_mem_nil,
                or_false] at ht2
              rcases ht2 with rfl | rfl | rfl | rfl | rfl | rfl <;>
                first | rfl | (exfalso; dsimp only at hc; omega)
            · simp only [TaiwanMarketBenchmark.get_credit_score_premium,
                credit_score_tiers, lookupCreditTier]
              rw [if_neg (fun hcon => c1 hcon.1), if_neg (fun hcon => c2 hcon.1),
                if_neg (fun hcon => c3 hcon.1), if_neg (fun hcon => c4 hcon.1),
                if_neg (fun hcon => c5 hcon.1),
                if_pos ⟨h1, show s ≤ 549 by omega⟩]

/-- Witness for `C9_credit_tier_coverage` at credit score 680: the matched
tier is the 650–699 one, with premium 0.015 and label 尚可. -/
theorem C9_credit_tier_coverage_witness :
    TaiwanMarketBenchmark.get_credit_score_premium 680 = (15 / 1000, "尚可") := by
  obtain ⟨t, ht, hc, huniq, heq, hpos⟩ :=
    C9_credit_tier_coverage 680 (by norm_num) (by norm_num)
  have h3 : (⟨650, 699, 15 / 1000, "尚可"⟩ : CreditTier) = t :=
    huniq ⟨650, 699, 15 / 1000, "尚可"⟩ (by simp [credit_score_tiers]) (by norm_num)
  rw [← h3] at heq
  exact heq

/-- Claim C10: whenever the rule gate rejects an application, the `/predict`
pipeline returns the rejection record: `risk_grade = 8` with grade 8's
display label and color from `RISK_GRADES`, approval decision 拒絕 (grade 8's
`APPROVAL_MATRIX` decision), `pd_score = 0`, `final_rate = 0`,
`market_benchmark_rate = 0`, empty components, `ml_model_used = false`, and
`failed_rules` equal to the rule gate's failure list — the rejected applicant
is presented as the worst risk grade although no PD was computed. -/
theorem C10_rejection_record (base : ℚ) (st : ScorerState) (a : LoanApplication)
    (h : (check_rule_gate
      ⟨a.annual_revenue_ntd, a.credit_score, a.years_in_business,
       derived_dbr a, derived_collateral_coverage a⟩).1 = false) :
    predict_interest_rate base st a =
      { final_rate := 0
        pd_score := 0
        risk_grade := 8
        risk_grade_name := (grade_info 8).name
        risk_color := (grade_info 8).color
        components := []
        monthly_payment := 0
        total_payment := 0
        total_interest := 0
        approval_decision := (approval_info 8).decision
        approval_authority := "N/A"
        approval_conditions := "未通過基本准入條件"
        market_benchmark_rate := 0
        rate_vs_market := 0
        is_eligible := false
        failed_rules := (check_rule_gate
          ⟨a.annual_revenue_ntd, a.credit_score, a.years_in_business,
           derived_dbr a, derived_collateral_coverage a⟩).2
        ml_model_used := false
        message := "申請案未通過基本准入規則檢查，請修正後再申請" } ∧
    grade_info 8 = ⟨"損失", 1, "#ac2925", 1200 / 10000⟩ ∧
    approval_info 8 = ⟨"拒絕", "N/A", "不符合授信政策"⟩ := by
  refine ⟨?_, rfl, rfl⟩
  simp only [predict_interest_rate, h, if_false, Bool.false_eq_true]
  rfl

/-- A rejected application (revenue 500,000, otherwise compliant) used to
witness `C10_rejection_record`. -/
def C10_app : LoanApplication :=
  ⟨500000, 5, 20, "manufacturing", 680, 500000, 36, 500000, false, false⟩

/-- Witness for `C10_rejection_record` at `C10_app`. -/
theorem C10_rejection_record_witness :
    predict_interest_rate default_base_rate noScorer C10_app =
      { final_rate := 0
        pd_score := 0
        risk_grade := 8
        risk_grade_name := (grade_info 8).name
        risk_color := (grade_info 8).color
        components := []
        monthly_payment := 0
        total_payment := 0
        total_interest := 0
        approval_decision := (approval_info 8).decision
        approval_authority := "N/A"
        approval_conditions := "未通過基本准入條件"
        market_benchmark_rate := 0
        rate_vs_market := 0
        is_eligible := false
        failed_rules := (check_rule_gate
          ⟨C10_app.annual_revenue_ntd, C10_app.credit_score,
           C10_app.years_in_business, derived_dbr C10_app,
           derived_collateral_coverage C10_app⟩).2
        ml_model_used := false
        message := "申請案未通過基本准入規則檢查，請修正後再申請" } ∧
    grade_info 8 = ⟨"損失", 1, "#ac2925", 1200 / 10000⟩ ∧
    approval_info 8 = ⟨"拒絕", "N/A", "不符合授信政策"⟩ :=
  C10_rejection_record default_base_rate noScorer C10_app
    (by norm_num [check_rule_gate, gate_rules, derived_dbr,
      derived_collateral_coverage, C10_app, List.filter])

end SME
